import Mathlib

/-!
Shallow embedding of `GPy/models/ss_gplvm.py` (class `SSGPLVM`,
Spike-and-Slab Gaussian Process Latent Variable Model) and proofs about it.

Matrices are modelled as total functions `ℕ → ℕ → K` over a linear ordered
field `K`; the shape `(N, D)` is carried separately where it matters
(numpy broadcasting).  All arithmetic that the Python code performs on
floating-point arrays is modelled as exact field arithmetic.
-/

namespace SSGPLVM

/-- A dense 2-d array, indexed by (row, column). -/
abbrev Mat (K : Type) := ℕ → ℕ → K

section GammaConstruction

variable {K : Type} [LinearOrderedField K]

/-- The clamping constant `1e-9` used in `SSGPLVM.__init__` (lines 49-50). -/
def gammaEps : K := 1 / 10 ^ 9

/-- `gamma[:] = 0.5 + 0.1 * np.random.randn(...)` (line 48): the randomly
perturbed inclusion-probability field, with the standard-normal draw `randn`
taken as an input. -/
def gammaPerturbed (randn : Mat K) : Mat K :=
  fun i j => 1 / 2 + (1 / 10) * randn i j

/-- `gamma[gamma>1.-1e-9] = 1.-1e-9` followed by `gamma[gamma<1e-9] = 1e-9`
(lines 49-50): masked assignments clamping the field into `[1e-9, 1-1e-9]`. -/
def gammaClamped (g : Mat K) : Mat K :=
  fun i j =>
    let hi := if g i j > 1 - gammaEps then 1 - gammaEps else g i j
    if hi < gammaEps then gammaEps else hi

/-- numpy assignment `target[:] = src` where `target` has shape `(N, D)` and
`src` has shape `(N,)`: broadcasting aligns trailing axes, so it succeeds only
when `N = D` (each row of the target becomes a copy of `src`, i.e.
`target[i,j] = src[j]`) or when `N = 1` (the single element of `src` fills the
target).  Any other shape raises `ValueError: could not broadcast`. -/
def numpyBroadcastColAssign (N D : ℕ) (src : ℕ → K) : Option (Mat K) :=
  if N = 1 then some (fun _ _ => src 0)
  else if N = D then some (fun _ j => src j)
  else none

/-- `SSGPLVM.__init__` lines 47-54: the construction of the posterior
binary-probability field `gamma`.  The perturbed-and-clamped field is computed
(lines 48-50) but then the whole array is overwritten with the constant `0.5`
(line 51); with `group_spike` the numpy assignment `gamma[:] = gamma[:,0]`
(line 54) is applied, whose source is the first column, shape `(N,)`. -/
def constructGamma (N D : ℕ) (group_spike : Bool) (randn : Mat K) :
    Option (Mat K) :=
  let _dead := gammaClamped (gammaPerturbed randn)
  let g : Mat K := fun _ _ => 1 / 2
  if group_spike then numpyBroadcastColAssign N D (fun i => g i 0) else some g

/-- `pi = np.empty((input_dim)); pi[:] = 0.5` (lines 60-61): the prior
inclusion-probability vector. -/
def constructPi : ℕ → K := fun _ => 1 / 2

end GammaConstruction

/-! ## The MPI synchronization layer (lines 145-171) -/

/-- The state consulted by `_set_params_transformed`: whether `self.mpi_comm`
is not `None`, the worker's rank, and the `__IN_OPTIMIZATION__` flag. -/
structure SyncState where
  mpi_active : Bool
  rank : ℕ
  in_optimization : Bool
deriving DecidableEq

/-- An MPI collective emitted by rank 0 of `_set_params_transformed`: either a
one-element signal broadcast (`Bcast(np.int32(v), root=0)`) or the broadcast
of a parameter vector (`Bcast(p, root=0)`). -/
inductive MPIEvent where
  | bcastSignal (v : ℤ)
  | bcastParams (p : List ℚ)
deriving DecidableEq

/-- `SSGPLVM._set_params_transformed` (lines 145-150): returns the list of MPI
collectives executed, in order, together with the parameter vector handed on
to `super()._set_params_transformed`.  With an MPI communicator, the continue
signal `1` is broadcast only when `__IN_OPTIMIZATION__` holds and the rank is
0, but `Bcast(p, root=0)` is executed unconditionally; without a communicator
nothing is broadcast. -/
def set_params_transformed (st : SyncState) (p : List ℚ) :
    List MPIEvent × List ℚ :=
  if st.mpi_active then
    ((if st.in_optimization ∧ st.rank = 0 then [MPIEvent.bcastSignal 1] else [])
      ++ [MPIEvent.bcastParams p], p)
  else ([], p)

/-- What a follower's blocking `Bcast` receives next: a one-element signal or
a parameter-vector payload. -/
inductive Incoming where
  | sig (v : ℤ)
  | payload (p : List ℚ)
deriving DecidableEq

/-- Outcome of the follower wait loop of `SSGPLVM.optimize` (lines 159-170):
it either breaks out normally (`flag == -1`), raises
`Exception("Unrecognizable flag for synchronization!")`, or exhausts the
scripted incoming stream while still blocked on a receive.  Each outcome
records the parameter vectors applied so far, in order. -/
inductive FollowerOutcome where
  | finished (applied : List (List ℚ))
  | protoFail (applied : List (List ℚ))
  | starved (applied : List (List ℚ))
deriving DecidableEq

/-- The follower wait loop (lines 161-170) over a scripted incoming stream:
each iteration receives a signal; on `1` it calls `_set_params_transformed`,
whose inner `Bcast(p, root=0)` receives the broadcast parameter vector, which
is applied, and the loop continues; on `-1` it breaks; on anything else it
raises. -/
def followerLoop : List Incoming → List (List ℚ) → FollowerOutcome
  | Incoming.sig v :: rest, acc =>
    if v = 1 then
      match rest with
      | Incoming.payload p :: rest2 => followerLoop rest2 (acc ++ [p])
      | _ => FollowerOutcome.starved acc
    else if v = -1 then FollowerOutcome.finished acc
    else FollowerOutcome.protoFail acc
  | _, acc => FollowerOutcome.starved acc
termination_by msgs _ => msgs.length
decreasing_by simp; omega

/-! ## Serialization (`__getstate__`, lines 128-135) -/

/-- The attribute dictionary returned by `__getstate__`.  `core` stands for
all the non-distributed model state inherited from `SparseGP`; the
MPI-related attributes are `Option`s, `none` meaning absent/`None`. -/
structure StateDict (C : Type) where
  core : C
  mpi_comm : Option ℕ
  Y_local : Option (List (List ℚ))
  X_local : Option (List (List ℚ))
  Y_range : Option (ℕ × ℕ)
  Y_list : Option (List ℕ)
deriving DecidableEq

/-- The live model's attributes, as far as `__getstate__` consults them. -/
structure ModelAttrs (C : Type) where
  core : C
  mpi_comm : Option ℕ
  Y_local : Option (List (List ℚ))
  X_local : Option (List (List ℚ))
  Y_range : Option (ℕ × ℕ)
  Y_list : Option (List ℕ)
deriving DecidableEq

/-- Modelled from the spec: `SparseGP.__getstate__` (the serialization
plumbing of the base class, not part of the sources) returns the dictionary
of all instance attributes unchanged. -/
def superGetstate {C : Type} (m : ModelAttrs C) : StateDict C :=
  ⟨m.core, m.mpi_comm, m.Y_local, m.X_local, m.Y_range, m.Y_list⟩

/-- `SSGPLVM.__getstate__` (lines 128-135): take the base-class dictionary,
null out `mpi_comm`, and, when the live model has an MPI communicator, delete
the `Y_local`, `X_local` and `Y_range` entries. -/
def getstate {C : Type} (m : ModelAttrs C) : StateDict C :=
  let dc := superGetstate m
  let dc := { dc with mpi_comm := none }
  if m.mpi_comm.isSome then
    { dc with Y_local := none, X_local := none, Y_range := none }
  else dc

/-! ## The recomputation cycle (`parameters_changed`, lines 102-113) -/

/-- The inference methods distinguished by the `isinstance` tests on line 103.
`varDTC` stands for any method that is neither `VarDTC_GPU` nor
`VarDTC_minibatch` (the plain sparse-GP path). -/
inductive InferenceMethod where
  | varDTC
  | varDTC_minibatch
  | varDTC_GPU
deriving DecidableEq

/-- `SpikeAndSlabPosterior`: the structured variational posterior `self.X`,
with per-entry mean, variance and binary probability and one gradient slot
per parameter array (`X.mean.gradient` etc., lines 96-113). -/
structure VPost where
  mean : Mat ℝ
  variance : Mat ℝ
  binary_prob : Mat ℝ
  mean_gradient : Mat ℝ
  variance_gradient : Mat ℝ
  binary_prob_gradient : Mat ℝ

/-- `SpikeAndSlabPrior`: the prior inclusion probability per latent
dimension. -/
structure SSPrior where
  pi : ℕ → ℝ

/-- The per-entry Gaussian term `KL(N(m, S) || N(0, 1))
= (S + m² − 1 − log S) / 2`. -/
noncomputable def gaussKLterm (m S : ℝ) : ℝ :=
  (S + m ^ 2 - 1 - Real.log S) / 2

/-- The per-entry Bernoulli term
`KL(Ber(g) || Ber(p)) = g·log(g/p) + (1−g)·log((1−g)/(1−p))`. -/
noncomputable def bernKL (g p : ℝ) : ℝ :=
  g * Real.log (g / p) + (1 - g) * Real.log ((1 - g) / (1 - p))

/-- Modelled from the spec: `SpikeAndSlabPrior.KL_divergence` (defined in
`core/parameterization/variational.py`, not part of the sources).  Per the
spec it decomposes additively over a continuous part — the Gaussian KL
between posterior mean/variance and a unit prior, weighted by the inclusion
probability — and a discrete part — the Bernoulli KL between the posterior
`binary_prob` and the prior `pi` — summed over the `N × D` entries. -/
noncomputable def KL_divergence (N D : ℕ) (prior : SSPrior) (q : VPost) : ℝ :=
  ∑ i ∈ Finset.range N, ∑ j ∈ Finset.range D,
    (q.binary_prob i j * gaussKLterm (q.mean i j) (q.variance i j)
      + bernKL (q.binary_prob i j) (prior.pi j))

/-- Partial derivative of the per-entry KL with respect to the mean.  (It
does not depend on the prior; the argument is kept for uniformity.) -/
noncomputable def klGradMean (_prior : SSPrior) (q : VPost) : Mat ℝ :=
  fun i j => q.binary_prob i j * q.mean i j

/-- Partial derivative of the per-entry KL with respect to the variance. -/
noncomputable def klGradVariance (_prior : SSPrior) (q : VPost) : Mat ℝ :=
  fun i j => q.binary_prob i j * (1 - 1 / q.variance i j) / 2

/-- Partial derivative of the per-entry KL with respect to `binary_prob`. -/
noncomputable def klGradBinaryProb (prior : SSPrior) (q : VPost) : Mat ℝ :=
  fun i j =>
    gaussKLterm (q.mean i j) (q.variance i j)
      + Real.log (q.binary_prob i j / (1 - q.binary_prob i j))
      - Real.log (prior.pi j / (1 - prior.pi j))

/-- Modelled from the spec: `SpikeAndSlabPrior.update_gradients_KL` (defined
in `core/parameterization/variational.py`, not part of the sources).  Per the
spec it computes the gradient of the KL term with respect to each posterior
parameter and adds it, in place, into the posterior's existing gradient
slots.  The objective is `evidence − KL`, so the KL partials enter with a
minus sign; the parameter values themselves are untouched. -/
noncomputable def update_gradients_KL (prior : SSPrior) (q : VPost) : VPost :=
  { q with
    mean_gradient := fun i j => q.mean_gradient i j - klGradMean prior q i j
    variance_gradient := fun i j =>
      q.variance_gradient i j - klGradVariance prior q i j
    binary_prob_gradient := fun i j =>
      q.binary_prob_gradient i j - klGradBinaryProb prior q i j }

/-- A posterior with all three gradient slots zeroed (the parameter values
are kept). -/
def zeroGrad (q : VPost) : VPost :=
  { q with
    mean_gradient := fun _ _ => 0
    variance_gradient := fun _ _ => 0
    binary_prob_gradient := fun _ _ => 0 }

/-- The outputs of the external collaborators for one recomputation cycle:
the evidence scalar produced by `super().parameters_changed()` (the sparse-GP
evidence engine) and the gradient triple returned by
`self.kern.gradients_qX_expectations(...)` from the gradient dictionary. -/
structure BaseEngine where
  evidence : ℝ
  qX_mean_grad : Mat ℝ
  qX_variance_grad : Mat ℝ
  qX_binary_prob_grad : Mat ℝ

/-- The model state consulted and mutated by `parameters_changed`. -/
structure ModelState where
  X : VPost
  variational_prior : SSPrior
  inference_method : InferenceMethod
  log_marginal_likelihood : ℝ

/-- `SSGPLVM.parameters_changed` (lines 102-113) for a model of shape
`(N, D)`.  `upd` is the external `update_gradients` engine imported from
`var_dtc_parallel` (used verbatim on the bypass branch); `base` carries the
external collaborators' outputs for this cycle.  On the non-bypass branch:
run the base computation, subtract `KL_divergence`, overwrite the posterior
gradient slots with the kernel-expectation gradients, then accumulate the KL
gradients via `update_gradients_KL`. -/
noncomputable def parameters_changed (N D : ℕ)
    (upd : ModelState → ModelState) (base : BaseEngine)
    (st : ModelState) : ModelState :=
  if st.inference_method = InferenceMethod.varDTC_GPU
      ∨ st.inference_method = InferenceMethod.varDTC_minibatch then
    upd st
  else
    let st1 := { st with log_marginal_likelihood := base.evidence }
    let st2 := { st1 with log_marginal_likelihood :=
      (st1.log_marginal_likelihood
        - KL_divergence N D st1.variational_prior st1.X) }
    let st3 := { st2 with X := { st2.X with
      mean_gradient := base.qX_mean_grad
      variance_gradient := base.qX_variance_grad
      binary_prob_gradient := base.qX_binary_prob_grad } }
    { st3 with X := update_gradients_KL st3.variational_prior st3.X }

/-- Modelled from the spec: `update_gradients` of the minibatch engine
(`var_dtc_parallel`, not part of the sources), the function the bypass branch
delegates to.  Per the spec it performs the entire evidence-plus-gradient
computation with its own KL handling, so the evidence it reports equals the
sparse-GP evidence minus the KL divergence and the gradient slots receive the
kernel-expectation gradients with the KL gradients accumulated.  It is
parameterized by the KL functional `kl` so that the same cycle can be run
with the KL term forced to zero. -/
noncomputable def update_gradients_minibatch
    (kl : SSPrior → VPost → ℝ) (base : BaseEngine)
    (st : ModelState) : ModelState :=
  let q := { st.X with
    mean_gradient := base.qX_mean_grad
    variance_gradient := base.qX_variance_grad
    binary_prob_gradient := base.qX_binary_prob_grad }
  { st with
    log_marginal_likelihood :=
      base.evidence - kl st.variational_prior st.X
    X := update_gradients_KL st.variational_prior q }

/-- The model built by `SSGPLVM.__init__` with 50 observations,
`input_dim=2`, `num_inducing=10` and every other argument at its default:
the posterior binary probabilities come from `constructGamma` (all `0.5`,
`group_spike=False`), the prior from `constructPi`, the variational variance
`S` from `np.random.uniform(0, .1, X.shape)` and the mean from the latent
initialization — both taken as inputs.  The default `inference_method=None`
is replaced by `VarDTC_minibatch(mpi_comm=None)` (lines 69-70). -/
noncomputable def constructedModel (meanX S randn : Mat ℝ) : ModelState :=
  { X :=
      { mean := meanX
        variance := S
        binary_prob := fun i j =>
          ((constructGamma 50 2 false randn).getD (fun _ _ => 0)) i j
        mean_gradient := fun _ _ => 0
        variance_gradient := fun _ _ => 0
        binary_prob_gradient := fun _ _ => 0 }
    variational_prior := { pi := constructPi }
    inference_method := InferenceMethod.varDTC_minibatch
    log_marginal_likelihood := 0 }

/-! ## Shared helper lemmas -/

/-- Whatever the shape, the randomness and the grouping flag, every entry of
a successfully constructed `gamma` is `0.5`: line 51 overwrites the whole
array, and the group-spike broadcast copies those same values. -/
theorem constructGamma_entry_half {K : Type} [LinearOrderedField K]
    {N D : ℕ} {gs : Bool} {randn g : Mat K}
    (h : constructGamma N D gs randn = some g) (i j : ℕ) : g i j = 1 / 2 := by
  cases gs with
  | false =>
    simp only [constructGamma, Bool.false_eq_true, if_false,
      Option.some.injEq] at h
    subst h; rfl
  | true =>
    simp only [constructGamma, if_true] at h
    unfold numpyBroadcastColAssign at h
    split at h
    · cases h; rfl
    · split at h
      · cases h; rfl
      · cases h

/-- On the bypass branch (`VarDTC_minibatch`), `parameters_changed` is the
external engine applied to the state. -/
theorem parameters_changed_minibatch {N D : ℕ}
    {upd : ModelState → ModelState} {base : BaseEngine} {st : ModelState}
    (h : st.inference_method = InferenceMethod.varDTC_minibatch) :
    parameters_changed N D upd base st = upd st := by
  simp [parameters_changed, h]

/-- The binary probabilities of the default-constructed model are all `0.5`
and its prior inclusion probabilities are all `0.5`. -/
theorem constructedModel_binary_prob {meanX S randn : Mat ℝ} (i j : ℕ) :
    (constructedModel meanX S randn).X.binary_prob i j = 1 / 2 := by
  simp [constructedModel, constructGamma]

/-- The KL divergence of the default-constructed model is strictly positive
as soon as the variational variances drawn by `np.random.uniform(0, .1)` are
strictly positive (they are below `0.1 < 1` by construction). -/
theorem constructedModel_KL_pos (meanX S randn : Mat ℝ)
    (hS : ∀ i j, i < 50 → j < 2 → 0 < S i j ∧ S i j < 1 / 10) :
    0 < KL_divergence 50 2 (constructedModel meanX S randn).variational_prior
      (constructedModel meanX S randn).X := by
  unfold KL_divergence
  apply Finset.sum_pos _ (Finset.nonempty_range_iff.mpr (by norm_num))
  intro i hi
  apply Finset.sum_pos _ (Finset.nonempty_range_iff.mpr (by norm_num))
  intro j hj
  rw [Finset.mem_range] at hi hj
  obtain ⟨hS0, hS1⟩ := hS i j hi hj
  have hbp : (constructedModel meanX S randn).X.binary_prob i j = 1 / 2 := by
    simp [constructedModel, constructGamma]
  have hpi : (constructedModel meanX S randn).variational_prior.pi j
      = 1 / 2 := by
    simp [constructedModel, constructPi]
  have hmean : (constructedModel meanX S randn).X.mean i j = meanX i j := rfl
  have hvar : (constructedModel meanX S randn).X.variance i j = S i j := rfl
  rw [hbp, hpi, hmean, hvar]
  have hbern : bernKL (1 / 2) (1 / 2) = 0 := by
    norm_num [bernKL, Real.log_one]
  have hgauss : 0 < gaussKLterm (meanX i j) (S i j) := by
    unfold gaussKLterm
    have hlog : Real.log (S i j) < S i j - 1 :=
      Real.log_lt_sub_one_of_pos hS0 (by nlinarith)
    nlinarith [sq_nonneg (meanX i j)]
  rw [hbern]
  nlinarith

/-- A concrete posterior used in witness instantiations: zero mean, unit
variance, binary probability one half, zeroed gradient slots. -/
noncomputable def sampleVPost : VPost :=
  ⟨fun _ _ => 0, fun _ _ => 1, fun _ _ => 1 / 2,
   fun _ _ => 0, fun _ _ => 0, fun _ _ => 0⟩

/-- Concrete external-collaborator outputs used in witness instantiations. -/
noncomputable def sampleBase : BaseEngine :=
  ⟨0, fun _ _ => 0, fun _ _ => 0, fun _ _ => 0⟩

/-- A concrete prior used in witness instantiations. -/
noncomputable def samplePrior : SSPrior := ⟨fun _ => 1 / 2⟩

/-- A concrete model state, parameterized by the inference method, used in
witness instantiations. -/
noncomputable def sampleState (im : InferenceMethod) : ModelState :=
  ⟨sampleVPost, samplePrior, im, 0⟩

/-- Concrete live-model attributes with an active MPI session, used in
witness instantiations. -/
def sampleAttrs : ModelAttrs ℕ :=
  ⟨7, some 0, some [[1]], some [[2]], some (0, 1), some [0, 1]⟩

/-! ## Claims -/

/-- C1: for every recomputation cycle that is not dispatched to a
minibatch/GPU inference engine, the evidence value the coordinator reports
after `parameters_changed` equals the sparse-GP evidence produced by the
base computation minus `prior.KL_divergence(posterior)`. -/
theorem C1_evidence_is_base_minus_KL (N D : ℕ)
    (upd : ModelState → ModelState) (base : BaseEngine) (st : ModelState)
    (h : st.inference_method = InferenceMethod.varDTC) :
    (parameters_changed N D upd base st).log_marginal_likelihood
      = base.evidence - KL_divergence N D st.variational_prior st.X := by
  simp [parameters_changed, h]

/-- Witness for C1 at a concrete one-by-one model. -/
theorem C1_witness :
    (parameters_changed 1 1 id sampleBase
        (sampleState InferenceMethod.varDTC)).log_marginal_likelihood
      = sampleBase.evidence
        - KL_divergence 1 1
            (sampleState InferenceMethod.varDTC).variational_prior
            (sampleState InferenceMethod.varDTC).X :=
  C1_evidence_is_base_minus_KL 1 1 id sampleBase
    (sampleState InferenceMethod.varDTC) rfl

/-- C2: whenever the configured inference method is the minibatch or the GPU
variant, `parameters_changed` delegates the entire computation to the
external `update_gradients` engine and returns its result unchanged — for
every possible engine — so it performs no KL subtraction and no
posterior-gradient write of its own. -/
theorem C2_bypass_full_delegation (N D : ℕ)
    (upd : ModelState → ModelState) (base : BaseEngine) (st : ModelState)
    (h : st.inference_method = InferenceMethod.varDTC_minibatch
      ∨ st.inference_method = InferenceMethod.varDTC_GPU) :
    parameters_changed N D upd base st = upd st := by
  rcases h with h | h <;> simp [parameters_changed, h]

/-- Witness for C2 at a concrete minibatch-configured model. -/
theorem C2_witness :
    parameters_changed 1 1 id sampleBase
        (sampleState InferenceMethod.varDTC_minibatch)
      = id (sampleState InferenceMethod.varDTC_minibatch) :=
  C2_bypass_full_delegation 1 1 id sampleBase
    (sampleState InferenceMethod.varDTC_minibatch) (Or.inl rfl)

/-- C3 counterexample: setting the parameter vector on rank 0 outside an
active optimization session (with an MPI communicator) still executes
`Bcast(p, root=0)`: the emitted collective trace is not empty, contradicting
the claim that no broadcast of any kind occurs. -/
theorem C3_counterexample :
    (set_params_transformed ⟨true, 0, false⟩ [1]).1
        = [MPIEvent.bcastParams [1]]
      ∧ (set_params_transformed ⟨true, 0, false⟩ [1]).1 ≠ [] := by
  decide

/-- C3 (amended): in distributed mode on rank 0, a parameter set during an
active optimization session broadcasts the continue signal `1` and then the
parameter vector; outside an active session no signal is broadcast, but the
parameter vector itself is still broadcast. -/
theorem C3_amended_write_through (st : SyncState) (p : List ℚ)
    (hm : st.mpi_active = true) (hr : st.rank = 0) :
    (st.in_optimization = true →
        (set_params_transformed st p).1
          = [MPIEvent.bcastSignal 1, MPIEvent.bcastParams p])
      ∧ (st.in_optimization = false →
        (set_params_transformed st p).1 = [MPIEvent.bcastParams p]) := by
  constructor <;> intro ho <;> simp [set_params_transformed, hm, hr, ho]

/-- Witness for C3 at a concrete in-session rank-0 state. -/
theorem C3_witness :
    ((⟨true, 0, true⟩ : SyncState).in_optimization = true →
        (set_params_transformed ⟨true, 0, true⟩ [1]).1
          = [MPIEvent.bcastSignal 1, MPIEvent.bcastParams [1]])
      ∧ ((⟨true, 0, true⟩ : SyncState).in_optimization = false →
        (set_params_transformed ⟨true, 0, true⟩ [1]).1
          = [MPIEvent.bcastParams [1]]) :=
  C3_amended_write_through ⟨true, 0, true⟩ [1] rfl rfl

/-- In the follower wait loop, a leading signal other than `1` is decided
without looking at the rest of the stream: `-1` finishes, anything else
raises. -/
theorem followerLoop_of_ne_one (w : ℤ) (msgs : List Incoming)
    (acc : List (List ℚ)) (hw : w ≠ 1) :
    followerLoop (Incoming.sig w :: msgs) acc
      = if w = -1 then FollowerOutcome.finished acc
        else FollowerOutcome.protoFail acc := by
  cases msgs with
  | nil => simp [followerLoop, hw]
  | cons m rest => cases m <;> simp [followerLoop, hw]

/-- C4: in the follower wait loop, signal `1` makes the follower receive and
apply the broadcast parameter vector and keep waiting, signal `-1` exits the
loop, and any other signal value raises the synchronization exception — it
never silently continues. -/
theorem C4_follower_signal_semantics (v : ℤ) (p : List ℚ)
    (msgs : List Incoming) (acc : List (List ℚ))
    (h1 : v ≠ 1) (h2 : v ≠ -1) :
    followerLoop (Incoming.sig 1 :: Incoming.payload p :: msgs) acc
        = followerLoop msgs (acc ++ [p])
      ∧ followerLoop (Incoming.sig (-1) :: msgs) acc
        = FollowerOutcome.finished acc
      ∧ followerLoop (Incoming.sig v :: msgs) acc
        = FollowerOutcome.protoFail acc := by
  refine ⟨?_, ?_, ?_⟩
  · rw [followerLoop, if_pos rfl]
  · rw [followerLoop_of_ne_one (-1) msgs acc (by norm_num), if_pos rfl]
  · rw [followerLoop_of_ne_one v msgs acc h1, if_neg h2]

/-- Witness for C4 at a concrete stream with the out-of-range signal `5`. -/
theorem C4_witness :
    followerLoop [Incoming.sig 1, Incoming.payload []] []
        = followerLoop [] ([] ++ [[]])
      ∧ followerLoop [Incoming.sig (-1)] [] = FollowerOutcome.finished []
      ∧ followerLoop [Incoming.sig 5] [] = FollowerOutcome.protoFail [] :=
  C4_follower_signal_semantics 5 [] [] [] (by decide) (by decide)

/-- C5: in the non-bypass cycle the kernel-expectation gradients are written
into the posterior's gradient slots first and `update_gradients_KL` then
adds the KL gradient on top of those values in place; applying the KL update
twice to freshly-zeroed slots yields exactly double the gradient of applying
it once. -/
theorem C5_gradient_ordering_and_KL_additivity (N D : ℕ)
    (upd : ModelState → ModelState) (base : BaseEngine) (st : ModelState)
    (prior : SSPrior) (q : VPost)
    (h : st.inference_method = InferenceMethod.varDTC) (i j : ℕ) :
    ((parameters_changed N D upd base st).X.mean_gradient i j
        = base.qX_mean_grad i j - klGradMean st.variational_prior st.X i j
      ∧ (parameters_changed N D upd base st).X.variance_gradient i j
        = base.qX_variance_grad i j
          - klGradVariance st.variational_prior st.X i j
      ∧ (parameters_changed N D upd base st).X.binary_prob_gradient i j
        = base.qX_binary_prob_grad i j
          - klGradBinaryProb st.variational_prior st.X i j)
    ∧ ((update_gradients_KL prior
          (update_gradients_KL prior (zeroGrad q))).mean_gradient i j
        = 2 * (update_gradients_KL prior (zeroGrad q)).mean_gradient i j
      ∧ (update_gradients_KL prior
          (update_gradients_KL prior (zeroGrad q))).variance_gradient i j
        = 2 * (update_gradients_KL prior (zeroGrad q)).variance_gradient i j
      ∧ (update_gradients_KL prior
          (update_gradients_KL prior (zeroGrad q))).binary_prob_gradient i j
        = 2 * (update_gradients_KL prior
            (zeroGrad q)).binary_prob_gradient i j) := by
  constructor
  · refine ⟨?_, ?_, ?_⟩ <;>
      simp [parameters_changed, h, update_gradients_KL, klGradMean,
        klGradVariance, klGradBinaryProb]
  · refine ⟨?_, ?_, ?_⟩ <;>
      simp [update_gradients_KL, zeroGrad, klGradMean, klGradVariance,
        klGradBinaryProb] <;> ring

/-- Witness for C5 at a concrete one-by-one model. -/
theorem C5_witness :
    ((parameters_changed 1 1 id sampleBase
          (sampleState InferenceMethod.varDTC)).X.mean_gradient 0 0
        = sampleBase.qX_mean_grad 0 0
          - klGradMean (sampleState InferenceMethod.varDTC).variational_prior
              (sampleState InferenceMethod.varDTC).X 0 0
      ∧ (parameters_changed 1 1 id sampleBase
          (sampleState InferenceMethod.varDTC)).X.variance_gradient 0 0
        = sampleBase.qX_variance_grad 0 0
          - klGradVariance
              (sampleState InferenceMethod.varDTC).variational_prior
              (sampleState InferenceMethod.varDTC).X 0 0
      ∧ (parameters_changed 1 1 id sampleBase
          (sampleState InferenceMethod.varDTC)).X.binary_prob_gradient 0 0
        = sampleBase.qX_binary_prob_grad 0 0
          - klGradBinaryProb
              (sampleState InferenceMethod.varDTC).variational_prior
              (sampleState InferenceMethod.varDTC).X 0 0)
    ∧ ((update_gradients_KL samplePrior
          (update_gradients_KL samplePrior
            (zeroGrad sampleVPost))).mean_gradient 0 0
        = 2 * (update_gradients_KL samplePrior
            (zeroGrad sampleVPost)).mean_gradient 0 0
      ∧ (update_gradients_KL samplePrior
          (update_gradients_KL samplePrior
            (zeroGrad sampleVPost))).variance_gradient 0 0
        = 2 * (update_gradients_KL samplePrior
            (zeroGrad sampleVPost)).variance_gradient 0 0
      ∧ (update_gradients_KL samplePrior
          (update_gradients_KL samplePrior
            (zeroGrad sampleVPost))).binary_prob_gradient 0 0
        = 2 * (update_gradients_KL samplePrior
            (zeroGrad sampleVPost)).binary_prob_gradient 0 0) :=
  C5_gradient_ordering_and_KL_additivity 1 1 id sampleBase
    (sampleState InferenceMethod.varDTC) samplePrior sampleVPost rfl 0 0

/-- C6: for the model built with 50 observations, `input_dim=2`,
`num_inducing=10` and all other arguments at their defaults (in particular
the default `VarDTC_minibatch` inference method, non-distributed), running
the recomputation cycle leaves the evidence scalar strictly below the value
it gets when the same cycle is run with the KL divergence term forced to 0 —
provided the variational variances drawn by `np.random.uniform(0, .1)` are
strictly positive. -/
theorem C6_KL_strictly_reduces_evidence (meanX S randn : Mat ℝ)
    (base : BaseEngine)
    (hS : ∀ i j, i < 50 → j < 2 → 0 < S i j ∧ S i j < 1 / 10) :
    (parameters_changed 50 2
        (update_gradients_minibatch (KL_divergence 50 2) base) base
        (constructedModel meanX S randn)).log_marginal_likelihood
      < (parameters_changed 50 2
        (update_gradients_minibatch (fun _ _ => 0) base) base
        (constructedModel meanX S randn)).log_marginal_likelihood := by
  rw [parameters_changed_minibatch rfl, parameters_changed_minibatch rfl]
  have hKL := constructedModel_KL_pos meanX S randn hS
  simp only [update_gradients_minibatch]
  linarith

/-- Witness for C6 at concrete zero means and variances `1/20 ∈ (0, 0.1)`. -/
theorem C6_witness :
    (parameters_changed 50 2
        (update_gradients_minibatch (KL_divergence 50 2) sampleBase)
        sampleBase
        (constructedModel (fun _ _ => 0) (fun _ _ => 1 / 20)
          (fun _ _ => 0))).log_marginal_likelihood
      < (parameters_changed 50 2
        (update_gradients_minibatch (fun _ _ => 0) sampleBase) sampleBase
        (constructedModel (fun _ _ => 0) (fun _ _ => 1 / 20)
          (fun _ _ => 0))).log_marginal_likelihood :=
  C6_KL_strictly_reduces_evidence (fun _ _ => 0) (fun _ _ => 1 / 20)
    (fun _ _ => 0) sampleBase
    (fun _ _ _ _ => ⟨by norm_num, by norm_num⟩)

/-- C7 counterexample: the constructed `binary_prob` is not the clamped
randomly perturbed field: with the standard-normal draw constantly `1` the
perturbed-and-clamped entry is `0.6`, but the constructed entry is `0.5` —
line 51 overwrites the perturbation. -/
theorem C7_counterexample :
    (constructGamma 1 1 false (fun _ _ => (1 : ℚ))).map (fun g => g 0 0)
      ≠ some (gammaClamped (gammaPerturbed (fun _ _ => (1 : ℚ))) 0 0) := by
  have h1 : (constructGamma 1 1 false (fun _ _ => (1 : ℚ))).map
      (fun g => g 0 0) = some (1 / 2) := rfl
  have h2 : gammaClamped (gammaPerturbed (fun _ _ => (1 : ℚ))) 0 0
      = 3 / 5 := by
    norm_num [gammaClamped, gammaPerturbed, gammaEps]
  rw [h1, h2]
  norm_num

/-- C7 (amended): the randomly perturbed inclusion-probability field is
computed and clamped at construction but then discarded by a final constant
assignment; every entry of the constructed `binary_prob` equals `0.5` and in
particular lies within `[ε, 1-ε]` for `ε = 1e-9`. -/
theorem C7_amended_gamma_in_clamp_range {K : Type} [LinearOrderedField K]
    (N D : ℕ) (gs : Bool) (randn g : Mat K)
    (h : constructGamma N D gs randn = some g) (i j : ℕ) :
    g i j = 1 / 2 ∧ gammaEps ≤ g i j ∧ g i j ≤ 1 - gammaEps := by
  have hg := constructGamma_entry_half h i j
  refine ⟨hg, ?_, ?_⟩ <;> rw [hg] <;> unfold gammaEps <;> norm_num

/-- Witness for C7 at a concrete one-by-one construction. -/
theorem C7_witness :
    (fun (_ _ : ℕ) => (1 / 2 : ℚ)) 0 0 = 1 / 2
      ∧ (gammaEps : ℚ) ≤ (fun (_ _ : ℕ) => (1 / 2 : ℚ)) 0 0
      ∧ (fun (_ _ : ℕ) => (1 / 2 : ℚ)) 0 0 ≤ 1 - gammaEps :=
  C7_amended_gamma_in_clamp_range 1 1 false (fun _ _ => 0)
    (fun _ _ => 1 / 2) rfl 0 0

/-- C8: constructing with `group_spike=True`, 3 observations and
`input_dim=2` does not succeed: the numpy assignment
`gamma[:] = gamma[:,0]` tries to broadcast a shape-`(3,)` array into shape
`(3, 2)`, which raises `ValueError`; the model of the construction returns
`none` at this failing input. -/
theorem C8_group_spike_broadcast_error :
    constructGamma 3 2 true (fun _ _ => (0 : ℚ)) = none := by
  simp [constructGamma, numpyBroadcastColAssign]

/-- C9: serializing a model with an active distributed session nulls the
session handle, drops the partition-slice entries `Y_local`, `X_local` and
`Y_range`, and carries the non-distributed model state over unchanged. -/
theorem C9_getstate_excludes_session_state {C : Type} (m : ModelAttrs C)
    (h : m.mpi_comm.isSome = true) :
    (getstate m).mpi_comm = none ∧ (getstate m).Y_local = none
      ∧ (getstate m).X_local = none ∧ (getstate m).Y_range = none
      ∧ (getstate m).core = m.core := by
  simp [getstate, superGetstate, h]

/-- Witness for C9 at concrete attributes with an active session. -/
theorem C9_witness :
    (getstate sampleAttrs).mpi_comm = none
      ∧ (getstate sampleAttrs).Y_local = none
      ∧ (getstate sampleAttrs).X_local = none
      ∧ (getstate sampleAttrs).Y_range = none
      ∧ (getstate sampleAttrs).core = sampleAttrs.core :=
  C9_getstate_excludes_session_state sampleAttrs rfl

/-- C10: for every construction with `group_spike=False`, every entry of the
posterior's `binary_prob` equals exactly `0.5` — the random perturbation is
discarded by the final constant assignment on line 51 — and every entry of
the prior vector `pi` equals exactly `0.5`. -/
theorem C10_gamma_and_pi_constant_half {K : Type} [LinearOrderedField K]
    (N D : ℕ) (randn g : Mat K)
    (h : constructGamma N D false randn = some g) (i j : ℕ) :
    g i j = 1 / 2 ∧ (constructPi j : K) = 1 / 2 :=
  ⟨constructGamma_entry_half h i j, rfl⟩

/-- Witness for C10 at a concrete one-by-one construction. -/
theorem C10_witness :
    (fun (_ _ : ℕ) => (1 / 2 : ℚ)) 1 0 = 1 / 2
      ∧ (constructPi 0 : ℚ) = 1 / 2 :=
  C10_gamma_and_pi_constant_half 2 1 (fun _ _ => 3) (fun _ _ => 1 / 2)
    rfl 1 0

end SSGPLVM
